import Mathlib

/-!
Verification of the business-finder program (`src/main.go`).

The program fetches nearby places from a map-data provider, maps each place
plus its detail lookup to a `Business` record, and upserts it into a
notes-service database.  We embed the data model, the record mapper
(`main.go` lines 332-359), the notes-database client operations
(`CheckDatabaseExists`, `CreateDatabase`, `BusinessExists`, `InsertBusiness`),
the pagination loop and the control flow of `main` as executable Lean
definitions, treating the two third-party HTTP APIs as oracles supplying
responses.
-/

/-- The `Business` struct of `main.go` (lines 14-24). -/
structure Business where
  name : String
  address : String
  placeID : String
  type : List String
  websiteStatus : String
  urgency : String
  contacted : String
  url : String
deriving Repr, DecidableEq

/-- The fields of a place summary returned by the nearby-search API that
`main` reads (`place.Name`, `place.FormattedAddress`, `place.PlaceID`,
`place.Types`). -/
structure PlaceResult where
  name : String
  formattedAddress : String
  placeID : String
  types : List String
deriving Repr, DecidableEq

/-- The field of a place-details lookup that `main` reads
(`details.Website`). -/
structure PlaceDetails where
  website : String
deriving Repr, DecidableEq

/-- The fixed map-search URL base hard-coded at `main.go` line 358. -/
def mapSearchBase : String := "https://www.google.com/maps/search/?api=1&query="

/-- The record mapper, `main.go` lines 332-359: website status, urgency and
URL from `details.Website`; category list default; the final URL rewrite for
records whose website status is "No Website". -/
def mapBusiness (place : PlaceResult) (details : PlaceDetails) : Business :=
  let websiteStatus := if details.website = "" then "No Website" else "Has Website"
  let urgency := if details.website = "" then "High" else "Medium"
  let url := if details.website = "" then "" else details.website
  let businessType := if place.types.length > 0 then place.types else ["Other"]
  let business : Business :=
    { name := place.name
      address := place.formattedAddress
      placeID := place.placeID
      type := businessType
      websiteStatus := websiteStatus
      urgency := urgency
      contacted := "Not Contacted"
      url := url }
  if business.websiteStatus = "No Website" then
    { business with url := mapSearchBase ++ business.address }
  else
    business

/-- **C1**: the record mapper determines website status, urgency and URL
solely from the website field of the detail lookup: non-empty website gives
status "Has Website", urgency "Medium" and the provider's website as URL;
empty website gives status "No Website", urgency "High" and the fixed
map-search base concatenated with the address. -/
theorem mapBusiness_website_fields (place : PlaceResult) (details : PlaceDetails) :
    (details.website ≠ "" →
      (mapBusiness place details).websiteStatus = "Has Website" ∧
      (mapBusiness place details).urgency = "Medium" ∧
      (mapBusiness place details).url = details.website) ∧
    (details.website = "" →
      (mapBusiness place details).websiteStatus = "No Website" ∧
      (mapBusiness place details).urgency = "High" ∧
      (mapBusiness place details).url = mapSearchBase ++ place.formattedAddress) := by
  constructor
  · intro h
    simp [mapBusiness, h]
  · intro h
    simp [mapBusiness, h]

/-- Witness for C1: both branches evaluated at concrete inputs. -/
theorem mapBusiness_website_fields_witness :
    ((mapBusiness ⟨"A", "addr", "p1", []⟩ ⟨"http://a.example"⟩).websiteStatus = "Has Website" ∧
      (mapBusiness ⟨"A", "addr", "p1", []⟩ ⟨"http://a.example"⟩).urgency = "Medium" ∧
      (mapBusiness ⟨"A", "addr", "p1", []⟩ ⟨"http://a.example"⟩).url = "http://a.example") ∧
    ((mapBusiness ⟨"B", "addr2", "p2", []⟩ ⟨""⟩).websiteStatus = "No Website" ∧
      (mapBusiness ⟨"B", "addr2", "p2", []⟩ ⟨""⟩).urgency = "High" ∧
      (mapBusiness ⟨"B", "addr2", "p2", []⟩ ⟨""⟩).url = mapSearchBase ++ "addr2") :=
  ⟨(mapBusiness_website_fields ⟨"A", "addr", "p1", []⟩ ⟨"http://a.example"⟩).1 (by decide),
   (mapBusiness_website_fields ⟨"B", "addr2", "p2", []⟩ ⟨""⟩).2 rfl⟩

/-- **C6**: a place with an empty provider category list maps to category
list exactly `["Other"]`; a place with a non-empty category list maps to the
provider's list unchanged. -/
theorem mapBusiness_category_default (place : PlaceResult) (details : PlaceDetails) :
    (place.types = [] → (mapBusiness place details).type = ["Other"]) ∧
    (place.types ≠ [] → (mapBusiness place details).type = place.types) := by
  constructor
  · intro h
    simp [mapBusiness, h]
    split <;> rfl
  · intro h
    have hlen : 0 < place.types.length := List.length_pos.mpr h
    simp [mapBusiness, hlen]
    split <;> rfl

/-- Witness for C6: both branches evaluated at concrete inputs. -/
theorem mapBusiness_category_default_witness :
    (mapBusiness ⟨"A", "addr", "p1", []⟩ ⟨""⟩).type = ["Other"] ∧
    (mapBusiness ⟨"B", "addr", "p2", ["cafe", "store"]⟩ ⟨""⟩).type = ["cafe", "store"] :=
  ⟨(mapBusiness_category_default ⟨"A", "addr", "p1", []⟩ ⟨""⟩).1 rfl,
   (mapBusiness_category_default ⟨"B", "addr", "p2", ["cafe", "store"]⟩ ⟨""⟩).2 (by decide)⟩

/-! ## Notes-database client (`NotionClient`, `main.go` lines 26-210)

Network responses from the notes service are oracle inputs: a `Database.Get`
or `Database.Query` call is an `Except` value, and a `Database.Create` call
is a pair of a possibly-nil database object and a possibly-nil error, exactly
the shape of the Go `(db *notionapi.Database, err error)` return. -/

/-- The mutable fields of the Go `NotionClient` struct (lines 27-31) that the
modelled operations read or write. -/
structure NotionClient where
  databaseID : String
  pageID : String
deriving Repr, DecidableEq

/-- A notes-service database object; we keep only the `ID` field read by
`CreateDatabase`. -/
structure DatabaseObj where
  id : String
deriving Repr, DecidableEq

/-- The raw return of the Go `Database.Create` call: a pointer that may be
nil and an error that may be nil. -/
structure CreateDbResponse where
  db : Option DatabaseObj
  err : Option String
deriving Repr, DecidableEq

/-- `CheckDatabaseExists` (lines 44-48): fetch the configured database and
return `err == nil`. -/
def checkDatabaseExists (getResp : Except String DatabaseObj) : Bool :=
  match getResp with
  | .ok _ => true
  | .error _ => false

/-- `CreateDatabase` (lines 51-115): issue the creation request, then assign
`nc.databaseID = db.ID` *before* returning `err`.  Reading `db.ID` from a nil
pointer is a run-time panic, modelled as `none`; otherwise the result is the
updated client together with the error value returned to the caller. -/
def createDatabase (nc : NotionClient) (resp : CreateDbResponse) :
    Option (NotionClient × Option String) :=
  match resp.db with
  | none => none
  | some d => some ({ nc with databaseID := d.id }, resp.err)

/-- `BusinessExists` (lines 118-134): query the database for pages whose
PlaceID property equals the candidate's; propagate a query error, otherwise
report whether the result list is non-empty. -/
def businessExists (queryResp : Except String (List Unit)) : Except String Bool :=
  match queryResp with
  | .error e => .error e
  | .ok res => .ok (res.length > 0)

/-- The page-creation request built by `InsertBusiness` (lines 152-206): one
property per `Business` field, parented under the client's database. -/
structure PageCreateRequest where
  parentDatabaseID : String
  name : String
  address : String
  placeID : String
  type : List String
  websiteStatus : String
  urgency : String
  contacted : String
  url : String
deriving Repr, DecidableEq

/-- Oracle responses consumed by one `InsertBusiness` call: the duplicate
query's response and the page-creation response. -/
structure NotionEnv where
  queryResp : Except String (List Unit)
  createPageResp : Except String Unit
deriving Repr

/-- Result of an `InsertBusiness` call: the returned error value (`.ok ()`
models a nil error) and the page-creation request submitted, if any. -/
structure InsertOutcome where
  result : Except String Unit
  createRequest : Option PageCreateRequest
deriving Repr

/-- `InsertBusiness` (lines 136-210): run the duplicate check; propagate its
error; skip (returning nil) when a duplicate exists; otherwise build the
page-creation request from the record and submit it, returning the creation
call's error value. -/
def insertBusiness (nc : NotionClient) (env : NotionEnv) (business : Business) :
    InsertOutcome :=
  match businessExists env.queryResp with
  | .error e => ⟨.error e, none⟩
  | .ok true => ⟨.ok (), none⟩
  | .ok false =>
    let page : PageCreateRequest :=
      { parentDatabaseID := nc.databaseID
        name := business.name
        address := business.address
        placeID := business.placeID
        type := business.type
        websiteStatus := business.websiteStatus
        urgency := business.urgency
        contacted := business.contacted
        url := business.url }
    match env.createPageResp with
    | .error e => ⟨.error e, some page⟩
    | .ok _ => ⟨.ok (), some page⟩

/-- **C7**: `CheckDatabaseExists` returns true iff the database fetch
returned no error; every error, of any kind, reads as absent. -/
theorem checkDatabaseExists_iff_ok (getResp : Except String DatabaseObj) :
    checkDatabaseExists getResp = true ↔ ∃ d, getResp = Except.ok d := by
  cases getResp with
  | ok d => simp [checkDatabaseExists]
  | error e => simp [checkDatabaseExists]

/-- **C3**: when the duplicate query answers with at least one existing page,
`InsertBusiness` submits no page-creation request and returns a nil error. -/
theorem insertBusiness_duplicate_skips (nc : NotionClient) (env : NotionEnv)
    (business : Business) (res : List Unit)
    (hq : env.queryResp = Except.ok res) (hres : res.length > 0) :
    (insertBusiness nc env business).result = Except.ok () ∧
    (insertBusiness nc env business).createRequest = none := by
  simp [insertBusiness, businessExists, hq, hres]

/-- Witness for C3: a duplicate query answering one existing page. -/
theorem insertBusiness_duplicate_skips_witness :
    (insertBusiness ⟨"db", "pg"⟩ ⟨Except.ok [()], Except.ok ()⟩
        ⟨"A", "addr", "p1", ["Other"], "No Website", "High", "Not Contacted", "u"⟩).result
      = Except.ok () ∧
    (insertBusiness ⟨"db", "pg"⟩ ⟨Except.ok [()], Except.ok ()⟩
        ⟨"A", "addr", "p1", ["Other"], "No Website", "High", "Not Contacted", "u"⟩).createRequest
      = none :=
  insertBusiness_duplicate_skips ⟨"db", "pg"⟩ ⟨Except.ok [()], Except.ok ()⟩
    ⟨"A", "addr", "p1", ["Other"], "No Website", "High", "Not Contacted", "u"⟩
    [()] rfl (by decide)

/-- **C9**: when the duplicate query itself errors, `InsertBusiness` returns
that error and submits no page-creation request. -/
theorem insertBusiness_query_error (nc : NotionClient) (env : NotionEnv)
    (business : Business) (e : String) (hq : env.queryResp = Except.error e) :
    (insertBusiness nc env business).result = Except.error e ∧
    (insertBusiness nc env business).createRequest = none := by
  simp [insertBusiness, businessExists, hq]

/-- Witness for C9: a failing duplicate query. -/
theorem insertBusiness_query_error_witness :
    (insertBusiness ⟨"db", "pg"⟩ ⟨Except.error "boom", Except.ok ()⟩
        ⟨"A", "addr", "p1", ["Other"], "No Website", "High", "Not Contacted", "u"⟩).result
      = Except.error "boom" ∧
    (insertBusiness ⟨"db", "pg"⟩ ⟨Except.error "boom", Except.ok ()⟩
        ⟨"A", "addr", "p1", ["Other"], "No Website", "High", "Not Contacted", "u"⟩).createRequest
      = none :=
  insertBusiness_query_error ⟨"db", "pg"⟩ ⟨Except.error "boom", Except.ok ()⟩
    ⟨"A", "addr", "p1", ["Other"], "No Website", "High", "Not Contacted", "u"⟩
    "boom" rfl

/-- **C5**: on a successful creation response, `CreateDatabase` stores the
new database's identifier in the client; a subsequent `InsertBusiness` on the
updated client parents its page-creation request under that identifier. -/
theorem createDatabase_success_assigns (nc : NotionClient) (d : DatabaseObj) :
    createDatabase nc ⟨some d, none⟩
        = some ({ nc with databaseID := d.id }, none) ∧
    ∀ env business, env.queryResp = Except.ok [] →
      ∃ req, (insertBusiness { nc with databaseID := d.id } env business).createRequest
          = some req ∧ req.parentDatabaseID = d.id := by
  refine ⟨rfl, ?_⟩
  intro env business hq
  refine ⟨{ parentDatabaseID := d.id, name := business.name, address := business.address,
            placeID := business.placeID, type := business.type,
            websiteStatus := business.websiteStatus, urgency := business.urgency,
            contacted := business.contacted, url := business.url }, ?_, rfl⟩
  cases hc : env.createPageResp with
  | ok u => simp [insertBusiness, businessExists, hq, hc]
  | error e => simp [insertBusiness, businessExists, hq, hc]

/-- Witness for C5: creation succeeds with identifier "newdb" and the next
insert parents under "newdb". -/
theorem createDatabase_success_assigns_witness :
    createDatabase ⟨"old", "pg"⟩ ⟨some ⟨"newdb"⟩, none⟩
        = some (⟨"newdb", "pg"⟩, none) ∧
    ∃ req, (insertBusiness ⟨"newdb", "pg"⟩ ⟨Except.ok [], Except.ok ()⟩
        ⟨"A", "addr", "p1", ["Other"], "No Website", "High", "Not Contacted", "u"⟩).createRequest
      = some req ∧ req.parentDatabaseID = "newdb" :=
  ⟨(createDatabase_success_assigns ⟨"old", "pg"⟩ ⟨"newdb"⟩).1,
   (createDatabase_success_assigns ⟨"old", "pg"⟩ ⟨"newdb"⟩).2
     ⟨Except.ok [], Except.ok ()⟩
     ⟨"A", "addr", "p1", ["Other"], "No Website", "High", "Not Contacted", "u"⟩ rfl⟩

/-- **C10**: `CreateDatabase` writes the response's identifier into the
client before inspecting the creation error — the field is overwritten even
when an error is returned — and a nil database object on the error path is
dereferenced without a check, a run-time panic. -/
theorem createDatabase_unconditional_assign :
    (∀ (nc : NotionClient) (d : DatabaseObj) (err : Option String),
      createDatabase nc ⟨some d, err⟩ = some ({ nc with databaseID := d.id }, err)) ∧
    (∀ (nc : NotionClient) (err : Option String),
      createDatabase nc ⟨none, err⟩ = none) :=
  ⟨fun _ _ _ => rfl, fun _ _ => rfl⟩

/-! ## Place-search pagination (`main.go` lines 296-379)

A nearby-search page fetch is an oracle response: either an error or a page
carrying results and a continuation token (`NextPageToken`).  A stub provider
is the finite list of responses it would return to successive fetches.
Detail lookups and the notes-service responses per place are further
oracles, keyed by place identifier. -/

/-- One nearby-search page: the `Results` and `NextPageToken` fields read by
the loop. -/
structure PageResponse where
  results : List PlaceResult
  nextPageToken : String
deriving Repr, DecidableEq

/-- Oracles for everything the inner loop consumes per place: the
place-details response and the notes-service responses, keyed by the place
identifier. -/
structure Oracles where
  details : String → Except String PlaceDetails
  notion : String → NotionEnv

/-- Processing of one place inside a page (lines 321-367): detail lookup —
an error skips the place (`none`) — then map and insert. -/
def processPlace (nc : NotionClient) (orc : Oracles) (place : PlaceResult) :
    Option InsertOutcome :=
  match orc.details place.placeID with
  | .error _ => none
  | .ok d => some (insertBusiness nc (orc.notion place.placeID) (mapBusiness place d))

/-- Whether a fetch response lets the pagination loop run another iteration:
it must be a successful page with a non-empty continuation token. -/
def continuesLoop (r : Except String PageResponse) : Bool :=
  match r with
  | .ok page => !(page.nextPageToken == "")
  | .error _ => false

/-- The pagination loop for one category (lines 308-378), run against a stub
provider given as the list of successive fetch responses.  Returns the number
of page fetches performed and the outcomes of the per-place processing.  A
fetch error breaks the loop after that fetch; an empty continuation token
ends it after processing the page; otherwise the loop continues with the
next response. -/
def runPages (nc : NotionClient) (orc : Oracles) :
    List (Except String PageResponse) → Nat × List (Option InsertOutcome)
  | [] => (0, [])
  | (.error _) :: _ => (1, [])
  | (.ok page) :: rest =>
    let outs := page.results.map (processPlace nc orc)
    if page.nextPageToken = "" then (1, outs)
    else
      let next := runPages nc orc rest
      (1 + next.1, outs ++ next.2)

/-- The outer category iteration (lines 296-379): each category has its own
stub response list and its own pagination loop. -/
def runCategories (nc : NotionClient) (orc : Oracles)
    (cats : List (List (Except String PageResponse))) :
    List (Nat × List (Option InsertOutcome)) :=
  cats.map (runPages nc orc)

/-- **C2**: the pagination loop halts exactly when the fetched page's
continuation token is empty — an empty token ends the loop after one more
fetch regardless of further stub responses, a non-empty token on a
successful page makes the loop fetch again — and a stub provider returning
tokens "A" then "" is fetched exactly twice. -/
theorem runPages_halts_iff_empty_token (nc : NotionClient) (orc : Oracles) :
    (∀ (page : PageResponse) (rest : List (Except String PageResponse)),
      page.nextPageToken = "" →
      (runPages nc orc (Except.ok page :: rest)).1 = 1) ∧
    (∀ (page : PageResponse) (rest : List (Except String PageResponse)),
      page.nextPageToken ≠ "" →
      (runPages nc orc (Except.ok page :: rest)).1 = 1 + (runPages nc orc rest).1) ∧
    (∀ (rs1 rs2 : List PlaceResult),
      (runPages nc orc [Except.ok ⟨rs1, "A"⟩, Except.ok ⟨rs2, ""⟩]).1 = 2) := by
  refine ⟨?_, ?_, ?_⟩
  · intro page rest h
    simp [runPages, h]
  · intro page rest h
    simp [runPages, h]
  · intro rs1 rs2
    simp [runPages]

/-- Witness for C2: concrete pages for the halting and continuing branches,
and the two-page stub. -/
theorem runPages_halts_iff_empty_token_witness :
    (runPages ⟨"db", "pg"⟩ ⟨fun _ => Except.error "", fun _ => ⟨Except.ok [], Except.ok ()⟩⟩
        [Except.ok ⟨[], ""⟩, Except.ok ⟨[], ""⟩]).1 = 1 ∧
    (runPages ⟨"db", "pg"⟩ ⟨fun _ => Except.error "", fun _ => ⟨Except.ok [], Except.ok ()⟩⟩
        [Except.ok ⟨[], "A"⟩, Except.ok ⟨[], ""⟩]).1
      = 1 + (runPages ⟨"db", "pg"⟩
          ⟨fun _ => Except.error "", fun _ => ⟨Except.ok [], Except.ok ()⟩⟩
          [Except.ok ⟨[], ""⟩]).1 ∧
    (runPages ⟨"db", "pg"⟩ ⟨fun _ => Except.error "", fun _ => ⟨Except.ok [], Except.ok ()⟩⟩
        [Except.ok ⟨[], "A"⟩, Except.ok ⟨[], ""⟩]).1 = 2 :=
  ⟨(runPages_halts_iff_empty_token ⟨"db", "pg"⟩
      ⟨fun _ => Except.error "", fun _ => ⟨Except.ok [], Except.ok ()⟩⟩).1
      ⟨[], ""⟩ [Except.ok ⟨[], ""⟩] rfl,
   (runPages_halts_iff_empty_token ⟨"db", "pg"⟩
      ⟨fun _ => Except.error "", fun _ => ⟨Except.ok [], Except.ok ()⟩⟩).2.1
      ⟨[], "A"⟩ [Except.ok ⟨[], ""⟩] (by decide),
   (runPages_halts_iff_empty_token ⟨"db", "pg"⟩
      ⟨fun _ => Except.error "", fun _ => ⟨Except.ok [], Except.ok ()⟩⟩).2.2 [] []⟩

/-- After any run of responses that keep the loop going, an erroring fetch is
performed once and ends the loop: no response after it is fetched. -/
theorem runPages_error_stops (nc : NotionClient) (orc : Oracles)
    (pre : List (Except String PageResponse)) (e : String)
    (rest : List (Except String PageResponse))
    (hpre : ∀ r ∈ pre, continuesLoop r = true) :
    (runPages nc orc (pre ++ Except.error e :: rest)).1 = pre.length + 1 := by
  induction pre with
  | nil => simp [runPages]
  | cons r pre ih =>
    have hr : continuesLoop r = true := hpre r (List.mem_cons_self r pre)
    cases r with
    | error e' => simp [continuesLoop] at hr
    | ok page =>
      have htok : ¬ page.nextPageToken = "" := by
        simpa [continuesLoop] using hr
      have ih' := ih (fun r hr' => hpre r (List.mem_cons_of_mem _ hr'))
      simp [runPages, htok, ih']
      omega

/-- **C8**: a page-fetch error ends that category's pagination loop — the
failed fetch happens once, later stub responses for the category are never
fetched — and the category iteration still processes every other category:
the categories before and after run exactly as they would alone. -/
theorem runCategories_error_abandons_category (nc : NotionClient) (orc : Oracles)
    (cats1 cats2 : List (List (Except String PageResponse)))
    (pre : List (Except String PageResponse)) (e : String)
    (rest : List (Except String PageResponse))
    (hpre : ∀ r ∈ pre, continuesLoop r = true) :
    (runPages nc orc (pre ++ Except.error e :: rest)).1 = pre.length + 1 ∧
    runCategories nc orc (cats1 ++ (pre ++ Except.error e :: rest) :: cats2)
      = runCategories nc orc cats1
        ++ runPages nc orc (pre ++ Except.error e :: rest)
          :: runCategories nc orc cats2 := by
  refine ⟨runPages_error_stops nc orc pre e rest hpre, ?_⟩
  simp [runCategories]

/-- Witness for C8: one successful page with token "A", then an erroring
fetch, with one category on either side. -/
theorem runCategories_error_abandons_category_witness :
    (runPages ⟨"db", "pg"⟩ ⟨fun _ => Except.error "", fun _ => ⟨Except.ok [], Except.ok ()⟩⟩
        ([Except.ok ⟨[], "A"⟩] ++ Except.error "boom" :: [Except.ok ⟨[], ""⟩])).1
      = 2 ∧
    runCategories ⟨"db", "pg"⟩ ⟨fun _ => Except.error "", fun _ => ⟨Except.ok [], Except.ok ()⟩⟩
        ([[Except.ok ⟨[], ""⟩]]
          ++ ([Except.ok ⟨[], "A"⟩] ++ Except.error "boom" :: [Except.ok ⟨[], ""⟩])
            :: [[Except.ok ⟨[], ""⟩]])
      = runCategories ⟨"db", "pg"⟩
          ⟨fun _ => Except.error "", fun _ => ⟨Except.ok [], Except.ok ()⟩⟩
          [[Except.ok ⟨[], ""⟩]]
        ++ runPages ⟨"db", "pg"⟩
            ⟨fun _ => Except.error "", fun _ => ⟨Except.ok [], Except.ok ()⟩⟩
            ([Except.ok ⟨[], "A"⟩] ++ Except.error "boom" :: [Except.ok ⟨[], ""⟩])
          :: runCategories ⟨"db", "pg"⟩
              ⟨fun _ => Except.error "", fun _ => ⟨Except.ok [], Except.ok ()⟩⟩
              [[Except.ok ⟨[], ""⟩]] :=
  runCategories_error_abandons_category ⟨"db", "pg"⟩
    ⟨fun _ => Except.error "", fun _ => ⟨Except.ok [], Except.ok ()⟩⟩
    [[Except.ok ⟨[], ""⟩]] [[Except.ok ⟨[], ""⟩]]
    [Except.ok ⟨[], "A"⟩] "boom" [Except.ok ⟨[], ""⟩]
    (by intro r hr; simp at hr; subst hr; rfl)

/-! ## Control flow of `main` (`main.go` lines 212-380)

`main` is a function of the outside world: the `.env` load result, the
environment variables, the notes-service responses, the Maps-client
construction result, and the per-category fetch responses.  `log.Fatal`
ends the process with exit status 1 (`fatal`); the nil-pointer dereference
in `CreateDatabase` ends it with a run-time panic (`panic`); otherwise the
program runs to completion. -/

/-- Everything `main` consumes from its environment and the two APIs. -/
structure World where
  dotenvOk : Bool
  googleKey : String
  notionKey : String
  notionDatabaseId : String
  notionPageId : String
  dbGetResp : Except String DatabaseObj
  dbCreateResp : CreateDbResponse
  mapsClientOk : Bool
  orc : Oracles
  categories : List (List (Except String PageResponse))

/-- How the process ends: `log.Fatal` (exit status 1) with the logged
message, a run-time panic, or normal completion carrying each category's
fetch count and per-place outcomes. -/
inductive MainOutcome where
  | fatal : String → MainOutcome
  | panic : MainOutcome
  | completed : List (Nat × List (Option InsertOutcome)) → MainOutcome
deriving Repr

/-- True exactly on the `log.Fatal` outcome. -/
def MainOutcome.isFatal : MainOutcome → Bool
  | .fatal _ => true
  | _ => false

/-- `main` (lines 212-380): load `.env`, check the three required
environment variables, build the notes client, ensure the database exists
(creating it when the existence check fails), build the Maps client, then
run the category iteration.  Every error inside the iteration is only
logged. -/
def mainRun (w : World) : MainOutcome :=
  if w.dotenvOk = false then .fatal "Error loading .env file"
  else if w.googleKey = "" then .fatal "GOOGLE_PLACES_API_KEY must be set"
  else if w.notionKey = "" ∨ w.notionDatabaseId = "" then
    .fatal "NOTION_API_KEY and NOTION_DATABASE_ID must be set"
  else
    let nc : NotionClient := ⟨w.notionDatabaseId, w.notionPageId⟩
    let ensured : Option (NotionClient × Option String) :=
      if checkDatabaseExists w.dbGetResp then some (nc, none)
      else createDatabase nc w.dbCreateResp
    match ensured with
    | none => .panic
    | some (_, some _) => .fatal "Failed to create Notion database"
    | some (nc2, none) =>
      if w.mapsClientOk = false then .fatal "Failed to create Google Maps client"
      else .completed (runCategories nc2 w.orc w.categories)

/-- The fatal causes enumerated by the claim: a required environment value
missing, construction of an API client failing (only the Maps client can
fail; `NewNotionClient` is total), or database creation failing when the
database is absent. -/
def claimFatalCause (w : World) : Prop :=
  w.googleKey = "" ∨ w.notionKey = "" ∨ w.notionDatabaseId = "" ∨
  w.mapsClientOk = false ∨
  (checkDatabaseExists w.dbGetResp = false ∧ w.dbCreateResp.err ≠ none)

/-- A world where only the `.env` load fails: every required environment
value is present, the database exists, and both clients and all fetches
would succeed. -/
def dotenvFailWorld : World :=
  { dotenvOk := false
    googleKey := "g"
    notionKey := "n"
    notionDatabaseId := "d"
    notionPageId := "p"
    dbGetResp := Except.ok ⟨"d"⟩
    dbCreateResp := ⟨some ⟨"d2"⟩, none⟩
    mapsClientOk := true
    orc := ⟨fun _ => Except.error "", fun _ => ⟨Except.ok [], Except.ok ()⟩⟩
    categories := [] }

/-- Counterexample to **C4**: when only the `.env` file fails to load, the
process exits fatally although none of the claim's enumerated causes holds
(all required configuration values are present and nothing else fails). -/
theorem mainRun_dotenv_fatal_counterexample :
    mainRun dotenvFailWorld = MainOutcome.fatal "Error loading .env file" ∧
    ¬ claimFatalCause dotenvFailWorld := by
  refine ⟨rfl, ?_⟩
  simp [claimFatalCause, dotenvFailWorld, checkDatabaseExists]

/-- **C4 (amended)**: provided the creation response carries a database
object (a nil one makes the program panic instead), the process exits
fatally with status 1 exactly when the `.env` file fails to load, a required
environment value is missing, the Maps client construction fails, or
database creation returns an error when the database is absent; in every
other case — page fetches, detail lookups and inserts may all fail — the
program runs to completion. -/
theorem mainRun_fatal_iff (w : World) (hdb : w.dbCreateResp.db ≠ none) :
    ((mainRun w).isFatal = true ↔ (w.dotenvOk = false ∨ claimFatalCause w)) ∧
    ((mainRun w).isFatal = false → ∃ res, mainRun w = MainOutcome.completed res) := by
  obtain ⟨d, hd⟩ : ∃ d, w.dbCreateResp.db = some d := by
    cases h : w.dbCreateResp.db with
    | none => exact absurd h hdb
    | some d => exact ⟨d, rfl⟩
  by_cases h1 : w.dotenvOk = false
  · simp [mainRun, h1, MainOutcome.isFatal]
  · by_cases h2 : w.googleKey = ""
    · simp [mainRun, h1, h2, MainOutcome.isFatal, claimFatalCause]
    · by_cases h3 : w.notionKey = "" ∨ w.notionDatabaseId = ""
      · simp only [mainRun, h1, h2, h3, if_true, if_false, ite_true, ite_false]
        simp [MainOutcome.isFatal, claimFatalCause, h1, h2]
        tauto
      · by_cases h4 : checkDatabaseExists w.dbGetResp
        · by_cases h5 : w.mapsClientOk = false
          · simp [mainRun, h1, h2, h3, h4, h5, MainOutcome.isFatal, claimFatalCause]
          · simp [mainRun, h1, h2, h3, h4, h5, MainOutcome.isFatal, claimFatalCause]
        · cases herr : w.dbCreateResp.err with
          | some e =>
            simp [mainRun, h1, h2, h3, h4, createDatabase, hd, herr,
              MainOutcome.isFatal, claimFatalCause]
          | none =>
            by_cases h5 : w.mapsClientOk = false
            · simp [mainRun, h1, h2, h3, h4, createDatabase, hd, herr, h5,
                MainOutcome.isFatal, claimFatalCause]
            · simp [mainRun, h1, h2, h3, h4, createDatabase, hd, herr, h5,
                MainOutcome.isFatal, claimFatalCause]

/-- Witness for the amended C4: the `.env`-failure world satisfies the
hypothesis and instantiates the equivalence. -/
theorem mainRun_fatal_iff_witness :
    ((mainRun dotenvFailWorld).isFatal = true ↔
      (dotenvFailWorld.dotenvOk = false ∨ claimFatalCause dotenvFailWorld)) ∧
    ((mainRun dotenvFailWorld).isFatal = false →
      ∃ res, mainRun dotenvFailWorld = MainOutcome.completed res) :=
  mainRun_fatal_iff dotenvFailWorld (by simp [dotenvFailWorld])
